import Mathlib

/-!
Shallow embedding of the Universal-Standard MCP Server's tool-evolution core
(`src/evolution/sandbox.js`, `src/evolution/orchestrator.js`,
`src/evolution/generator.js`, `src/mcp/toolRegistry.js`), together with
theorems settling the specification claims about it.

JavaScript values handled by these modules are embedded as `JValue`.
External effects (the `vm` module's regex/compile/run machinery, the durable
log store, the discovery/provider network calls) are passed in as explicit
oracle parameters; all control flow, data shapes and string constants are
translated from the source.
-/

namespace UStdMCP

/-- Embedding of the JSON-like values the server passes around. -/
inductive JValue where
  | null : JValue
  | bool : Bool → JValue
  | num : Int → JValue
  | str : String → JValue
  | arr : List JValue → JValue
  | obj : List (String × JValue) → JValue
  deriving Repr, Inhabited

/-- JavaScript truthiness for the embedded values: `null`, `false`, `0` and
the empty string are falsy; arrays and objects are always truthy. -/
def jsTruthy : JValue → Bool
  | .null => false
  | .bool b => b
  | .num n => n != 0
  | .str s => s != ""
  | .arr _ => true
  | .obj _ => true

/-- Property access `v.k`: `some` value on an object that has the field,
`none` (JavaScript `undefined`) otherwise. -/
def getField : JValue → String → Option JValue
  | .obj fs, k => (fs.find? (fun p => p.1 == k)).map (fun p => p.2)
  | _, _ => none

/-- JavaScript object-property assignment `o[k] = v` on the field list:
overwrites an existing field in place, otherwise appends. -/
def objSet (fields : List (String × JValue)) (k : String) (v : JValue) :
    List (String × JValue) :=
  if fields.any (fun p => p.1 == k) then
    fields.map (fun p => if p.1 == k then (k, v) else p)
  else
    fields ++ [(k, v)]

/-! ### Sandbox (`src/evolution/sandbox.js`) -/

/-- Embedding of `DEFAULT_TIMEOUT` from sandbox.js. -/
def DEFAULT_TIMEOUT : Nat := 5000

/-- Embedding of `MAX_TIMEOUT` from sandbox.js (declared at the top of the file). -/
def MAX_TIMEOUT : Nat := 30000

/-- JavaScript `a || d` for an optional numeric option: `0` (and absence)
falls through to the default. -/
def jsOrNat : Option Nat → Nat → Nat
  | some t, d => if t = 0 then d else t
  | none, d => d

/-- The `ToolSandbox` constructor's `this.defaultTimeout = options.timeout ||
DEFAULT_TIMEOUT`. -/
def ToolSandbox.defaultTimeoutOf (optTimeout : Option Nat) : Nat :=
  jsOrNat optTimeout DEFAULT_TIMEOUT

/-- The timeout applied by `ToolSandbox.testExecution` to each test-case run:
`this.defaultTimeout` (both for `runInContext` and for the race). -/
def ToolSandbox.testExecutionTimeout (defaultTimeout : Nat) : Nat :=
  defaultTimeout

/-- The timeout computed at the top of `ToolSandbox.execute`:
`Math.min(options.timeout || this.defaultTimeout, this.defaultTimeout)`. -/
def ToolSandbox.executeTimeout (defaultTimeout : Nat) (optTimeout : Option Nat) : Nat :=
  min (jsOrNat optTimeout defaultTimeout) defaultTimeout

/-- One entry of the `dangerousPatterns` table in
`ToolSandbox.performSecurityScan`: regex source text, issue name, severity. -/
structure DangerousPattern where
  pattern : String
  name : String
  severity : String
  deriving Repr, DecidableEq

/-- The `dangerousPatterns` table from `performSecurityScan`, in source
order. -/
def dangerousPatterns : List DangerousPattern :=
  [ ⟨"require\\s*\\(", "require() call", "critical"⟩,
    ⟨"import\\s+.*from", "import statement", "critical"⟩,
    ⟨"process\\.", "process access", "critical"⟩,
    ⟨"child_process", "child_process module", "critical"⟩,
    ⟨"\\bexec\\s*\\(", "exec() call", "critical"⟩,
    ⟨"\\bspawn\\s*\\(", "spawn() call", "critical"⟩,
    ⟨"\\beval\\s*\\(", "eval() call", "critical"⟩,
    ⟨"new\\s+Function\\s*\\(", "Function constructor", "critical"⟩,
    ⟨"\\bfs\\.", "filesystem access", "critical"⟩,
    ⟨"\\bfetch\\s*\\(", "fetch() call", "critical"⟩,
    ⟨"XMLHttpRequest", "XMLHttpRequest access", "critical"⟩,
    ⟨"WebSocket", "WebSocket access", "critical"⟩,
    ⟨"\\bhttp\\.", "http module access", "critical"⟩,
    ⟨"\\bhttps\\.", "https module access", "critical"⟩,
    ⟨"\\bnet\\.", "net module access", "critical"⟩,
    ⟨"\\bdns\\.", "dns module access", "critical"⟩,
    ⟨"setTimeout\\s*\\(", "setTimeout call", "high"⟩,
    ⟨"setInterval\\s*\\(", "setInterval call", "critical"⟩,
    ⟨"setImmediate\\s*\\(", "setImmediate call", "critical"⟩,
    ⟨"__dirname", "__dirname access", "critical"⟩,
    ⟨"__filename", "__filename access", "critical"⟩,
    ⟨"\\.env\\b", "env file access", "critical"⟩,
    ⟨"globalThis", "globalThis access", "critical"⟩,
    ⟨"global\\.", "global access", "critical"⟩,
    ⟨"Reflect\\.", "Reflect API", "high"⟩,
    ⟨"new\\s+Proxy\\s*\\(", "Proxy constructor", "high"⟩,
    ⟨"Object\\.getOwnPropertyDescriptor", "property descriptor access", "medium"⟩,
    ⟨"process\\.env", "environment variable access", "critical"⟩,
    ⟨"Buffer\\.allocUnsafe", "unsafe buffer allocation", "high"⟩,
    ⟨"WeakRef", "WeakRef access", "medium"⟩,
    ⟨"FinalizationRegistry", "FinalizationRegistry access", "medium"⟩ ]

/-- A reported security issue (`{ name, severity, pattern }`); the
`Invalid code` early-return issue has no `pattern` field. -/
structure SecurityIssue where
  name : String
  severity : String
  pattern : Option String
  deriving Repr, DecidableEq

/-- Result shape of `performSecurityScan`. -/
structure SecurityScanResult where
  passed : Bool
  issues : List SecurityIssue
  criticalCount : Nat
  highCount : Nat
  mediumCount : Nat
  lowCount : Nat
  deriving Repr, DecidableEq

/-- Embedding of `ToolSandbox.performSecurityScan`. The regex engine is an oracle
`rtest pattern code` standing for JavaScript `pattern.test(code)`; the code
being absent or not a string is represented by the empty string. -/
def performSecurityScan (rtest : String → String → Bool) (handlerCode : String) :
    SecurityScanResult :=
  if handlerCode = "" then
    { passed := false
      issues := [⟨"Invalid code", "critical", none⟩]
      criticalCount := 1, highCount := 0, mediumCount := 0, lowCount := 0 }
  else
    let issues : List SecurityIssue :=
      (dangerousPatterns.filter (fun p => rtest p.pattern handlerCode)).map
        (fun p => ⟨p.name, p.severity, some p.pattern⟩)
    let criticalIssues := issues.filter (fun i => i.severity == "critical")
    let highIssues := issues.filter (fun i => i.severity == "high")
    { passed := criticalIssues.length == 0 && highIssues.length == 0
      issues := issues
      criticalCount := criticalIssues.length
      highCount := highIssues.length
      mediumCount := (issues.filter (fun i => i.severity == "medium")).length
      lowCount := (issues.filter (fun i => i.severity == "low")).length }

/-- JSON-schema fragment as consumed by `generateSampleValue` and
`generateDefaultTestCases`: `type`, `enum`, `default`, `minimum`, `items`,
`properties`, `required`. -/
inductive Schema where
  | mk : (type : Option String) → (enum : Option (List JValue)) →
      (dflt : Option JValue) → (minimum : Option Int) →
      (items : Option Schema) → (properties : List (String × Schema)) →
      (required : List String) → Schema
  deriving Repr

def Schema.type : Schema → Option String
  | .mk t _ _ _ _ _ _ => t

def Schema.enum : Schema → Option (List JValue)
  | .mk _ e _ _ _ _ _ => e

def Schema.dflt : Schema → Option JValue
  | .mk _ _ d _ _ _ _ => d

def Schema.minimum : Schema → Option Int
  | .mk _ _ _ m _ _ _ => m

def Schema.items : Schema → Option Schema
  | .mk _ _ _ _ i _ _ => i

def Schema.properties : Schema → List (String × Schema)
  | .mk _ _ _ _ _ p _ => p

def Schema.required : Schema → List String
  | .mk _ _ _ _ _ _ r => r

/-- Embedding of `schema.minimum || 1` from the numeric branch of
`generateSampleValue`: a zero minimum is falsy and falls through to `1`. -/
def numericSample (minimum : Option Int) : JValue :=
  match minimum with
  | some m => if m = 0 then .num 1 else .num m
  | none => .num 1

mutual

/-- Embedding of `ToolSandbox.generateSampleValue`; `none` is a missing schema
(`if (!schema) return 'test'`). `schema.enum` and `schema.default` are
truthiness-tested in the source; `schema.default ?? true` for booleans is
nullish-tested. -/
def generateSampleValue : Option Schema → JValue
  | none => .str "test"
  | some (.mk type enum dflt minimum items props _) =>
    match type with
    | some "string" =>
      match enum with
      | some es => es.headD .null
      | none =>
        match dflt with
        | some d => if jsTruthy d then d else .str "test_value"
        | none => .str "test_value"
    | some "integer" =>
      match dflt with
      | some d => if jsTruthy d then d else numericSample minimum
      | none => numericSample minimum
    | some "number" =>
      match dflt with
      | some d => if jsTruthy d then d else numericSample minimum
      | none => numericSample minimum
    | some "boolean" =>
      match dflt with
      | some .null => .bool true
      | some d => d
      | none => .bool true
    | some "array" => .arr [generateSampleValue items]
    | some "object" => .obj (samplesOfProps props)
    | _ => .str "test"

/-- The `object` branch of `generateSampleValue`: a sample for each declared
property. -/
def samplesOfProps : List (String × Schema) → List (String × JValue)
  | [] => []
  | (k, ps) :: rest => (k, generateSampleValue (some ps)) :: samplesOfProps rest

end

/-- A sandbox test case (`{ name, input, expectedOutput }`). -/
structure TestCase where
  name : String
  input : JValue
  expectedOutput : JValue
  deriving Repr

/-- Embedding of `properties[prop]` lookup used when populating required parameters. -/
def lookupProp (props : List (String × Schema)) (k : String) : Option Schema :=
  (props.find? (fun p => p.1 == k)).map (fun p => p.2)

/-- Embedding of `ToolSandbox.generateDefaultTestCases`: a minimal case populating only
`required` properties, then a case populating every declared property. -/
def generateDefaultTestCases (inputSchema : Schema) : List TestCase :=
  let properties := inputSchema.properties
  let required := inputSchema.required
  let minimalInput :=
    required.foldl
      (fun acc prop => objSet acc prop (generateSampleValue (lookupProp properties prop))) []
  let fullInput :=
    properties.foldl
      (fun acc p => objSet acc p.1 (generateSampleValue (some p.2))) []
  [ { name := "minimal_required_params", input := .obj minimalInput,
      expectedOutput := .obj [("type", .str "success")] },
    { name := "all_params", input := .obj fullInput,
      expectedOutput := .obj [("type", .str "success")] } ]

/-- Result of `validateResult` (`{ passed, reason }`). -/
structure Validation where
  passed : Bool
  reason : String
  deriving Repr, DecidableEq

/-- The per-item check in `validateResult`:
`c.type === 'text' && typeof c.text === 'string'`. -/
def isTextItem (c : JValue) : Bool :=
  (match getField c "type" with
   | some (.str s) => s == "text"
   | _ => false) &&
  (match getField c "text" with
   | some (.str _) => true
   | _ => false)

/-- Embedding of `ToolSandbox.validateResult`. An array-valued `content` field is always
truthy in JavaScript, so `result.content && Array.isArray(result.content)`
holds exactly when the field is present with an array value. -/
def validateResult (result : JValue) (expectedOutput : JValue) : Validation :=
  if !jsTruthy result then
    { passed := false, reason := "No result returned" }
  else
    let hasValidContent :=
      match getField result "content" with
      | some (.arr items) => items.any isTextItem
      | _ => false
    if hasValidContent then
      { passed := true, reason := "Valid MCP response format" }
    else if jsTruthy expectedOutput &&
        (match getField expectedOutput "type" with
         | some (.str s) => s == "success"
         | _ => false) then
      { passed := true, reason := "Execution completed without error" }
    else
      { passed := false,
        reason := "Invalid response format - expected MCP format with content array" }

/-- A tool definition as the sandbox sees it; a missing `handlerCode` is the
empty string (both are falsy for `!tool.handlerCode`). -/
structure Tool where
  name : String
  handlerCode : String
  inputSchema : Schema

/-- Result shape of `testCompilation` (`{ passed, error? }`). -/
structure CompilationResult where
  passed : Bool
  error : Option String
  deriving Repr, DecidableEq

/-- Outcome of compiling and invoking the handler on one test case, as
produced by the `vm` oracle inside `testExecution`: the compiled value is
not a function, the run threw (or timed out), or it produced a value. -/
inductive ExecOutcome where
  | notFunction : ExecOutcome
  | thrown : String → ExecOutcome
  | value : JValue → ExecOutcome

/-- One entry of `results.executionTests` (`testExecution`'s result). -/
structure ExecutionTest where
  passed : Bool
  testCase : TestCase
  result : Option JValue
  validation : Option Validation
  error : Option String

/-- Embedding of `ToolSandbox.testExecution` for a single test case. `run` is the oracle
for the sandboxed `vm` compile-and-invoke of the handler on the case's
input. -/
def testExecution (run : TestCase → ExecOutcome) (testCase : TestCase) :
    ExecutionTest :=
  match run testCase with
  | .notFunction =>
    { passed := false, testCase := testCase, result := none, validation := none,
      error := some "Handler is not a function" }
  | .thrown msg =>
    { passed := false, testCase := testCase, result := none, validation := none,
      error := some msg }
  | .value v =>
    let validation := validateResult v testCase.expectedOutput
    { passed := validation.passed, testCase := testCase, result := some v,
      validation := some validation, error := none }

/-- Result shape of `ToolSandbox.test`. `executionTests = none` models the
early return for a missing `handlerCode`, whose result object carries no
`executionTests` field at all; `some []` is the initialized-but-empty
list. -/
structure SandboxTestResult where
  testId : String
  toolName : String
  passed : Bool
  securityScan : Option SecurityScanResult
  compilationTest : Option CompilationResult
  executionTests : Option (List ExecutionTest)
  error : Option String

/-- Embedding of `ToolSandbox.test`. Oracles: `rtest` is the regex engine for the
security scan, `compileError` the outcome of `new vm.Script` on the wrapped
handler (`none` = compiled), `run` the sandboxed execution of one test
case. `testId` stands for the generated uuid. -/
def ToolSandbox.test (rtest : String → String → Bool)
    (compileError : Option String) (run : TestCase → ExecOutcome)
    (tool : Tool) (testCases : List TestCase) (testId : String) :
    SandboxTestResult :=
  if tool.handlerCode = "" then
    { testId := testId, toolName := tool.name, passed := false,
      securityScan := none, compilationTest := none, executionTests := none,
      error := some "Invalid tool: missing handlerCode" }
  else
    let securityScan := performSecurityScan rtest tool.handlerCode
    if !securityScan.passed then
      { testId := testId, toolName := tool.name, passed := false,
        securityScan := some securityScan, compilationTest := none,
        executionTests := some [], error := some "Security scan failed" }
    else
      match compileError with
      | some e =>
        { testId := testId, toolName := tool.name, passed := false,
          securityScan := some securityScan,
          compilationTest := some ⟨false, some e⟩, executionTests := some [],
          error := some "Compilation test failed" }
      | none =>
        let effectiveTestCases :=
          if testCases.length > 0 then testCases
          else generateDefaultTestCases tool.inputSchema
        let executionTests := effectiveTestCases.map (testExecution run)
        { testId := testId, toolName := tool.name,
          passed := executionTests.all (fun t => t.passed),
          securityScan := some securityScan,
          compilationTest := some ⟨true, none⟩,
          executionTests := some executionTests, error := none }

/-! ### Orchestrator (`src/evolution/orchestrator.js`) -/

/-- Embedding of `MAX_CONCURRENT_EVOLUTIONS` from orchestrator.js. -/
def MAX_CONCURRENT_EVOLUTIONS : Nat := 5

/-- One character of `toolName.trim().toLowerCase().replace(/[^a-z0-9_]/g, '_')`:
anything outside `[a-z0-9_]` becomes an underscore. -/
def sanitizeChar (c : Char) : Char :=
  if ('a' ≤ c ∧ c ≤ 'z') ∨ ('0' ≤ c ∧ c ≤ '9') ∨ c = '_' then c else '_'

/-- JavaScript `String.prototype.trim`: strip leading and trailing
whitespace. -/
def jsTrim (s : String) : String :=
  ⟨((s.data.dropWhile Char.isWhitespace).reverse.dropWhile Char.isWhitespace).reverse⟩

/-- JavaScript `String.prototype.toLowerCase` on the ASCII range (tool
names): map upper-case letters to lower case. -/
def jsLowerChar (c : Char) : Char :=
  if 'A' ≤ c ∧ c ≤ 'Z' then Char.ofNat (c.toNat + 32) else c

def jsToLower (s : String) : String :=
  ⟨s.data.map jsLowerChar⟩

/-- The sanitized name computed at the top of `evolve`:
`toolName.trim().toLowerCase().replace(/[^a-z0-9_]/g, '_')`. -/
def sanitizeName (s : String) : String :=
  ⟨(jsToLower (jsTrim s)).data.map sanitizeChar⟩

/-- One audit row attempted through `logStage`
(`storage.logToolCreation(toolName, stage, status, ...)`). -/
structure LogRow where
  toolName : String
  stage : String
  status : String
  deriving Repr, DecidableEq

/-- Embedding of `EvolutionOrchestrator.logStage`: awaits the durable store and swallows
any store failure (`catch` → `logger.warn`), so the caller never observes
an exception from it. `store` is the `storage.logToolCreation` oracle. -/
def logStage (store : LogRow → Except String Unit) (row : LogRow) :
    Except String Unit :=
  match store row with
  | .ok _ => .ok ()
  | .error _ => .ok ()

/-- Embedding of `this.activeEvolutions` (a `Map` from sanitized tool name to
evolutionId), embedded as an association list with unique keys. -/
def mapHas (m : List (String × String)) (k : String) : Bool :=
  m.any (fun p => p.1 == k)

def mapGet (m : List (String × String)) (k : String) : Option String :=
  (m.find? (fun p => p.1 == k)).map (fun p => p.2)

def mapSet (m : List (String × String)) (k v : String) :
    List (String × String) :=
  if mapHas m k then m.map (fun p => if p.1 == k then (k, v) else p)
  else m ++ [(k, v)]

def mapDelete (m : List (String × String)) (k : String) :
    List (String × String) :=
  m.filter (fun p => p.1 != k)

def mapSize (m : List (String × String)) : Nat := m.length

/-- How the pipeline stages inside `evolve`'s `try` block turn out, as an
oracle: generation failed, sandbox testing failed, full success with the
registered tool's id, or an exception thrown at some stage (carrying the
audit rows that had been attempted before the throw). -/
inductive StageOutcome where
  | genFail : String → StageOutcome
  | testFail : StageOutcome
  | ok : String → StageOutcome
  | exn : String → List LogRow → StageOutcome

/-- The result object returned by `evolve` (the fields the claims are
about: `success`, `error`, `evolutionId`, `stage`). -/
structure EvolveResult where
  success : Bool
  error : Option String
  evolutionId : String
  stage : Option String
  deriving Repr, DecidableEq

/-- Output of one `evolve` call: the `activeEvolutions` map after the call,
the returned result, and the audit rows attempted through `logStage`. -/
structure EvolveOutput where
  state : List (String × String)
  result : EvolveResult
  rows : List LogRow

/-- The audit rows attempted by the `try` block of `evolve` (including those
of `runDiscovery`, `runGeneration`, `runTesting`, `runRegistration`) for
each stage outcome. All of them pass the unsanitized `toolName`. -/
def stageRows (toolName : String) : StageOutcome → List LogRow
  | .genFail _ =>
    [⟨toolName, "started", "in_progress"⟩,
     ⟨toolName, "discovery", "in_progress"⟩,
     ⟨toolName, "discovery", "completed"⟩,
     ⟨toolName, "generation", "in_progress"⟩,
     ⟨toolName, "generation", "failed"⟩,
     ⟨toolName, "generation", "failed"⟩]
  | .testFail =>
    [⟨toolName, "started", "in_progress"⟩,
     ⟨toolName, "discovery", "in_progress"⟩,
     ⟨toolName, "discovery", "completed"⟩,
     ⟨toolName, "generation", "in_progress"⟩,
     ⟨toolName, "generation", "completed"⟩,
     ⟨toolName, "testing", "in_progress"⟩,
     ⟨toolName, "testing", "failed"⟩,
     ⟨toolName, "testing", "failed"⟩]
  | .ok _ =>
    [⟨toolName, "started", "in_progress"⟩,
     ⟨toolName, "discovery", "in_progress"⟩,
     ⟨toolName, "discovery", "completed"⟩,
     ⟨toolName, "generation", "in_progress"⟩,
     ⟨toolName, "generation", "completed"⟩,
     ⟨toolName, "testing", "in_progress"⟩,
     ⟨toolName, "testing", "completed"⟩,
     ⟨toolName, "registration", "in_progress"⟩,
     ⟨toolName, "registration", "completed"⟩,
     ⟨toolName, "completed", "success"⟩]
  | .exn _ logged => logged ++ [⟨toolName, "error", "failed"⟩]

/-- Embedding of `EvolutionOrchestrator.evolve`. `store` is the durable audit store,
`active` the current `activeEvolutions` map, `evolutionId` the generated
uuid, `outcome` the oracle for the pipeline stages. A missing or non-string
`toolName` is the empty string. Every audit row goes through `logStage`; if
one of those awaits threw, the `catch` block would handle it. Note that
every lock release in the source is `this.activeEvolutions.delete(toolName)`
with the *unsanitized* name, while the entry was created under the
sanitized name. -/
def evolve (store : LogRow → Except String Unit)
    (active : List (String × String)) (toolName evolutionId : String)
    (outcome : StageOutcome) : EvolveOutput :=
  if toolName = "" then
    { state := active,
      result := ⟨false, some "Tool name is required", evolutionId, none⟩,
      rows := [] }
  else
    let sanitizedName := sanitizeName toolName
    if mapHas active sanitizedName then
      { state := active,
        result := ⟨false, some ("Evolution already in progress for " ++ sanitizedName),
          (mapGet active sanitizedName).getD evolutionId, none⟩,
        rows := [] }
    else if MAX_CONCURRENT_EVOLUTIONS ≤ mapSize active then
      { state := active,
        result := ⟨false, some "Maximum concurrent evolutions (5) reached",
          evolutionId, none⟩,
        rows := [] }
    else
      let locked := mapSet active sanitizedName evolutionId
      let rows := stageRows toolName outcome
      match rows.mapM (logStage store) with
      | .error e =>
        { state := mapDelete locked toolName,
          result := ⟨false, some e, evolutionId, some "unknown"⟩,
          rows := rows }
      | .ok _ =>
        match outcome with
        | .genFail err =>
          { state := mapDelete locked toolName,
            result := ⟨false, some err, evolutionId, some "generation"⟩,
            rows := rows }
        | .testFail =>
          { state := mapDelete locked toolName,
            result := ⟨false, some "Tool failed sandbox testing", evolutionId,
              some "testing"⟩,
            rows := rows }
        | .ok _ =>
          { state := mapDelete locked toolName,
            result := ⟨true, none, evolutionId, none⟩,
            rows := rows }
        | .exn msg _ =>
          { state := mapDelete locked toolName,
            result := ⟨false, some msg, evolutionId, some "unknown"⟩,
            rows := rows }

/-! ### Generator analysis (`src/evolution/generator.js`) -/

/-- One discovery candidate before tagging (`relevanceScore`,
`toolImplementation`); a missing excerpt is `none`. -/
structure RawCandidate where
  relevanceScore : Int
  toolImplementation : Option String
  deriving Repr, DecidableEq

/-- One discovery source's output (`{ source, results }`). -/
structure Discovery where
  source : String
  results : List RawCandidate
  deriving Repr, DecidableEq

/-- A candidate after `analyzeDiscoveryResults` tags it with its
discovery source. -/
structure Candidate where
  relevanceScore : Int
  toolImplementation : Option String
  source : String
  deriving Repr, DecidableEq

/-- The flattening loop at the top of `analyzeDiscoveryResults`: each
discovery's results, tagged with that discovery's `source`. -/
def tagResults (ds : List Discovery) : List Candidate :=
  ds.foldl
    (fun acc d =>
      acc ++ d.results.map (fun r => ⟨r.relevanceScore, r.toolImplementation, d.source⟩))
    []

/-- The sort order of `allResults.sort((a, b) => b.relevanceScore -
a.relevanceScore)`: higher scores first. The JavaScript engine's stable
sort is modelled by a stable insertion sort under this relation. -/
def candLE (a b : Candidate) : Prop := b.relevanceScore ≤ a.relevanceScore

instance : DecidableRel candLE := fun a b =>
  inferInstanceAs (Decidable (b.relevanceScore ≤ a.relevanceScore))

/-- JavaScript truthiness of `topResults[0].toolImplementation` (an absent
or empty excerpt is falsy). -/
def candHasImpl (c : Candidate) : Bool :=
  match c.toolImplementation with
  | some s => s != ""
  | none => false

/-- Truthiness test lifted to the optional head of the reference list. -/
def headHasImpl : Option Candidate → Bool
  | some c => candHasImpl c
  | none => false

/-- Result shape of `analyzeDiscoveryResults`. -/
structure AnalysisResult where
  canGenerate : Bool
  reason : Option String
  references : List Candidate
  suggestedApproach : String
  bestMatch : Option Candidate
  deriving Repr, DecidableEq

/-- Embedding of `ToolGenerator.analyzeDiscoveryResults`: flatten and tag all discovery
results; with no candidates, generate from scratch; otherwise sort by
`relevanceScore` descending, keep the top 3 as references, and pick the
approach from the *first* (highest-scored) reference's excerpt. -/
def analyzeDiscoveryResults (ds : List Discovery) : AnalysisResult :=
  let allResults := tagResults ds
  if allResults.length = 0 then
    { canGenerate := true,
      reason := some "No existing implementations found, will generate from scratch",
      references := [], suggestedApproach := "ai-generated", bestMatch := none }
  else
    let sortedResults := allResults.insertionSort candLE
    let topResults := sortedResults.take 3
    { canGenerate := true, reason := none, references := topResults,
      suggestedApproach :=
        if headHasImpl topResults.head? then "adapt-existing" else "ai-generated",
      bestMatch := topResults.head? }

/-! ### Tool registry (`src/mcp/toolRegistry.js`) -/

/-- The error object built by `evolveAndExecute` when the orchestrator
reports failure. `JSON.stringify` is modelled by carrying the object itself
in the text item. `error` and `stage` fields that are `undefined` in the
result object are embedded as `.null`. -/
def evolutionFailedPayload (name : String) (evolutionResult : EvolveResult) : JValue :=
  .obj [("error", .str "Tool evolution failed"),
        ("toolName", .str name),
        ("reason", match evolutionResult.error with
                   | some e => .str e
                   | none => .null),
        ("stage", match evolutionResult.stage with
                  | some s => .str s
                  | none => .null),
        ("suggestion", .str "The requested tool could not be automatically created. Please try a different tool name or provide more context.")]

/-- The structured response returned by `evolveAndExecute` when the
orchestrator reports failure: a text content item carrying the error
payload, with `isError: true`. -/
def evolutionFailedResponse (name : String) (evolutionResult : EvolveResult) : JValue :=
  .obj [("content", .arr [.obj [("type", .str "text"),
                                ("text", evolutionFailedPayload name evolutionResult)]]),
        ("isError", .bool true)]

/-- The structured response built by `evolveAndExecute`'s `catch` block for
an exception with message `msg`. -/
def evolutionErrorResponse (name msg : String) : JValue :=
  .obj [("content", .arr [.obj [("type", .str "text"),
                                ("text", .obj [("error", .str "Tool evolution error"),
                                               ("toolName", .str name),
                                               ("message", .str msg)])]]),
        ("isError", .bool true)]

/-- The `{...result, _evolution: {...}}` spread on the successful path. A
non-object result contributes no enumerable properties. -/
def withEvolutionMeta (result : JValue) (evolutionId : String) : JValue :=
  let meta := JValue.obj [("newTool", .bool true), ("evolutionId", .str evolutionId)]
  match result with
  | .obj fs => .obj (objSet fs "_evolution" meta)
  | _ => .obj [("_evolution", meta)]

/-- Embedding of `ToolRegistry.evolveAndExecute`. Oracles: `evolutionResult` is what
`evolutionOrchestrator.evolve` resolved to (its own `catch` means it never
throws), `register` the `dynamicRegistry.registerTool` call, `runAfter` the
`dynamicRegistry.execute` call on the fresh tool; either may throw, and the
surrounding `try`/`catch` converts any throw into a structured error
response, so this function always returns a value. -/
def evolveAndExecute (evolutionResult : EvolveResult)
    (register : Except String Unit) (runAfter : Except String JValue)
    (name : String) : JValue :=
  if !evolutionResult.success then
    evolutionFailedResponse name evolutionResult
  else
    match register with
    | .error e => evolutionErrorResponse name e
    | .ok _ =>
      match runAfter with
      | .error e => evolutionErrorResponse name e
      | .ok result => withEvolutionMeta result evolutionResult.evolutionId

/-- Embedding of `ToolRegistry.execute`. `builtinHas`/`dynamicHas` are the membership
tests of the two registries, `builtinRun`/`dynamicRun` the corresponding
handler invocations (whose throws propagate to the caller), `ctxAutoEvolve`
the `context.autoEvolve` flag (`none` = absent) and `autoEvolveEnabled` the
registry's flag. An `Except.error` is a thrown exception. -/
def registryExecute (builtinHas dynamicHas : Bool)
    (builtinRun dynamicRun : Except String JValue)
    (autoEvolveEnabled : Bool) (ctxAutoEvolve : Option Bool)
    (evolutionResult : EvolveResult) (register : Except String Unit)
    (runAfter : Except String JValue) (name : String) :
    Except String JValue :=
  if builtinHas then builtinRun
  else if dynamicHas then dynamicRun
  else if (ctxAutoEvolve != some false) && autoEvolveEnabled then
    .ok (evolveAndExecute evolutionResult register runAfter name)
  else
    .error ("Tool not found: " ++ name)

/-! ### Spec-side predicates and shared lemmas -/

/-- Spec-side predicate: the result is a structured payload whose `content`
array contains at least one item with `type: 'text'` and a string `text`
field (the spec's well-formed-response shape). -/
def hasValidMcpContent (result : JValue) : Bool :=
  match getField result "content" with
  | some (.arr items) => items.any isTextItem
  | _ => false

/-- Spec-side predicate: the test case's expected output is a truthy value
whose `type` field is the string `success`. -/
def expectedSuccess (e : JValue) : Bool :=
  jsTruthy e &&
    (match getField e "type" with
     | some (.str s) => s == "success"
     | _ => false)

/-- The input schema of the spec's Scenario D:
`{type:"object", required:["text"], properties:{text:{type:"string"}}}`. -/
def schemaD : Schema :=
  .mk (some "object") none none none none
    [("text", .mk (some "string") none none none none [] [])] ["text"]

theorem logStage_ok (store : LogRow → Except String Unit) (row : LogRow) :
    logStage store row = .ok () := by
  unfold logStage
  cases store row <;> rfl

theorem mapM_loop_logStage (store : LogRow → Except String Unit)
    (rows : List LogRow) (acc : List Unit) :
    List.mapM.loop (logStage store) rows acc =
      .ok (acc.reverse ++ rows.map (fun _ => ())) := by
  induction rows generalizing acc with
  | nil =>
    simp [List.mapM.loop]
    rfl
  | cons r rest ih =>
    simp [List.mapM.loop, logStage_ok, ih]
    rfl

theorem mapM_logStage (store : LogRow → Except String Unit) (rows : List LogRow) :
    rows.mapM (logStage store) = .ok (rows.map (fun _ => ())) := by
  rw [List.mapM, mapM_loop_logStage]
  rfl

theorem mapHas_of_mapGet_some {m : List (String × String)} {k v : String}
    (h : mapGet m k = some v) : mapHas m k = true := by
  unfold mapGet at h
  unfold mapHas
  rcases hf : m.find? (fun p => p.1 == k) with _ | p
  · rw [hf] at h
    simp at h
  · have hmem := List.mem_of_find?_eq_some hf
    have hp := List.find?_some hf
    exact List.any_eq_true.mpr ⟨p, hmem, hp⟩

theorem mapSize_mapSet_le (m : List (String × String)) (k v : String) :
    mapSize (mapSet m k v) ≤ mapSize m + 1 := by
  unfold mapSize mapSet
  split
  · rw [List.length_map]
    omega
  · rw [List.length_append]
    simp

theorem mapSize_mapDelete_le (m : List (String × String)) (k : String) :
    mapSize (mapDelete m k) ≤ mapSize m := by
  unfold mapSize mapDelete
  exact List.length_filter_le _ m

theorem jsTruthy_of_hasValidMcpContent {r : JValue}
    (h : hasValidMcpContent r = true) : jsTruthy r = true := by
  unfold hasValidMcpContent getField at h
  cases r <;> simp_all [jsTruthy]

/-! ### Claim theorems -/

/-- C4: the claim that the effective timeout defaults to 5,000 ms is right,
but the 30,000 ms ceiling is never enforced: `MAX_TIMEOUT` is declared and
then never applied, so constructing the sandbox with `timeout: 60000` makes
both `testExecution` and `execute` run with a 60,000 ms timeout, above the
ceiling the spec states. -/
theorem sandbox_timeout_ceiling_not_enforced :
    ToolSandbox.defaultTimeoutOf none = DEFAULT_TIMEOUT ∧
    ToolSandbox.defaultTimeoutOf (some 60000) = 60000 ∧
    MAX_TIMEOUT < ToolSandbox.defaultTimeoutOf (some 60000) ∧
    ToolSandbox.testExecutionTimeout (ToolSandbox.defaultTimeoutOf (some 60000)) = 60000 ∧
    ToolSandbox.executeTimeout (ToolSandbox.defaultTimeoutOf (some 60000)) none = 60000 := by
  decide

/-- C1: the lock entry is created under the sanitized name but every release
site deletes the unsanitized `toolName`, so a completed `evolve("MyTool")`
call leaves `"mytool"` locked in the active-evolutions map: the map still
holds the entry after the call returns with success, and a later call for
the same tool name is rejected as already in progress. -/
theorem evolve_unsanitized_delete_leaks_lock :
    (evolve (fun _ => .ok ()) [] "MyTool" "id-1" (.ok "tool-1")).result.success = true ∧
    sanitizeName "MyTool" = "mytool" ∧
    (evolve (fun _ => .ok ()) [] "MyTool" "id-1" (.ok "tool-1")).state = [("mytool", "id-1")] ∧
    mapHas (evolve (fun _ => .ok ()) [] "MyTool" "id-1" (.ok "tool-1")).state
      (sanitizeName "MyTool") = true ∧
    (evolve (fun _ => .ok ())
      (evolve (fun _ => .ok ()) [] "MyTool" "id-1" (.ok "tool-1")).state
      "MyTool" "id-2" (.ok "tool-2")).result =
      ⟨false, some "Evolution already in progress for mytool", "id-1", none⟩ := by
  decide

/-- For a tool name already in sanitized form the release site's key agrees
with the creation key and the lock is removed as intended. -/
theorem evolve_releases_lock_for_sanitized_fixed_point :
    (evolve (fun _ => .ok ()) [] "my_tool" "id-1" (.ok "tool-1")).state = [] := by
  decide

/-- C2 counterexample: a sandbox test run whose handler returns a truthy
value with no `content` array at all still passes `ToolSandbox.test`,
because `validateResult` falls back to accepting any truthy result when the
test case's `expectedOutput.type` is `success` — and the synthesized
default test cases always carry that expected output. The claim that a
test passes only for the structured-payload shape, and otherwise fails with
the invalid-format reason, is therefore false. -/
theorem sandbox_test_passes_without_mcp_shape :
    hasValidMcpContent (.obj [("ok", .bool true)]) = false ∧
    (validateResult (.obj [("ok", .bool true)])
      (.obj [("type", .str "success")])).passed = true ∧
    (validateResult (.obj [("ok", .bool true)])
      (.obj [("type", .str "success")])).reason = "Execution completed without error" ∧
    (ToolSandbox.test (fun _ _ => false) none
      (fun _ => .value (.obj [("ok", .bool true)]))
      ⟨"echo", "async (args) => 42", schemaD⟩ [] "tid-1").passed = true := by
  refine ⟨by decide, by decide, by decide, ?_⟩
  decide

theorem validateResult_eq_cases (r e : JValue) :
    validateResult r e =
      if jsTruthy r = false then ⟨false, "No result returned"⟩
      else if hasValidMcpContent r then ⟨true, "Valid MCP response format"⟩
      else if expectedSuccess e then ⟨true, "Execution completed without error"⟩
      else ⟨false, "Invalid response format - expected MCP format with content array"⟩ := by
  unfold validateResult hasValidMcpContent expectedSuccess
  cases hr : jsTruthy r <;> simp [hr]

/-- C2 amended: `validateResult` passes a result exactly when it is truthy
and either has the well-formed MCP content shape or the expected output is
`success`-typed; a truthy result of the wrong shape fails with the
invalid-response-format reason only when the expected output is not
`success`-typed, and a falsy result fails with `No result returned`. -/
theorem validateResult_characterization (r e : JValue) :
    validateResult r e =
      if jsTruthy r = false then ⟨false, "No result returned"⟩
      else if hasValidMcpContent r then ⟨true, "Valid MCP response format"⟩
      else if expectedSuccess e then ⟨true, "Execution completed without error"⟩
      else ⟨false, "Invalid response format - expected MCP format with content array"⟩ :=
  validateResult_eq_cases r e

/-- C3 counterexample: with two candidates where only the second-ranked
reference carries a usable code excerpt, the analysis still suggests
`ai-generated`: the source consults only `topResults[0].toolImplementation`,
not all three references, so the claim's "any of those references" is
false. -/
theorem analyze_second_reference_excerpt_ignored :
    ((analyzeDiscoveryResults [⟨"github", [⟨10, none⟩, ⟨5, some "code"⟩]⟩]).references.any
      (fun c => candHasImpl c)) = true ∧
    (analyzeDiscoveryResults [⟨"github", [⟨10, none⟩, ⟨5, some "code"⟩]⟩]).suggestedApproach
      = "ai-generated" := by
  decide

instance : IsTotal Candidate candLE :=
  ⟨fun a b => le_total b.relevanceScore a.relevanceScore⟩

instance : IsTrans Candidate candLE :=
  ⟨fun _ _ _ hab hbc => le_trans hbc hab⟩

/-- C3 amended: with at least one candidate, the analysis sorts all tagged
candidates by `relevanceScore` descending (a stable sort under `candLE`),
keeps the first 3 as references — references drawn from the candidates,
pairwise ordered by descending score, of length `min 3 n` — and sets
`suggestedApproach` to `adapt-existing` exactly when the *top-ranked*
reference (also exposed as `bestMatch`) carries a usable code excerpt, and
to `ai-generated` otherwise. -/
theorem analyzeDiscoveryResults_top3_spec (ds : List Discovery)
    (h : tagResults ds ≠ []) :
    (analyzeDiscoveryResults ds).references =
      ((tagResults ds).insertionSort candLE).take 3 ∧
    (analyzeDiscoveryResults ds).references.Pairwise candLE ∧
    (∀ c ∈ (analyzeDiscoveryResults ds).references, c ∈ tagResults ds) ∧
    (analyzeDiscoveryResults ds).references.length = min 3 (tagResults ds).length ∧
    (analyzeDiscoveryResults ds).suggestedApproach =
      (if headHasImpl (analyzeDiscoveryResults ds).references.head?
       then "adapt-existing" else "ai-generated") ∧
    (analyzeDiscoveryResults ds).bestMatch =
      (analyzeDiscoveryResults ds).references.head? := by
  have hlen : ¬((tagResults ds).length = 0) := by
    simpa [List.length_eq_zero] using h
  unfold analyzeDiscoveryResults
  rw [if_neg hlen]
  refine ⟨rfl, ?_, ?_, ?_, rfl, rfl⟩
  · exact ((List.sorted_insertionSort candLE (tagResults ds)).sublist
      (List.take_sublist _ _))
  · intro c hc
    have hc2 : c ∈ (tagResults ds).insertionSort candLE :=
      List.mem_of_mem_take hc
    exact (List.perm_insertionSort candLE (tagResults ds)).mem_iff.mp hc2
  · rw [List.length_take, List.length_insertionSort]

/-- Witness for the amended C3 theorem at a concrete two-candidate
discovery list. -/
theorem analyzeDiscoveryResults_top3_spec_witness :
    tagResults [⟨"github", [⟨10, none⟩, ⟨5, some "code"⟩]⟩] ≠ [] ∧
    ((analyzeDiscoveryResults [⟨"github", [⟨10, none⟩, ⟨5, some "code"⟩]⟩]).references =
      ((tagResults [⟨"github", [⟨10, none⟩, ⟨5, some "code"⟩]⟩]).insertionSort candLE).take 3 ∧
    (analyzeDiscoveryResults [⟨"github", [⟨10, none⟩, ⟨5, some "code"⟩]⟩]).references.Pairwise candLE ∧
    (∀ c ∈ (analyzeDiscoveryResults [⟨"github", [⟨10, none⟩, ⟨5, some "code"⟩]⟩]).references,
      c ∈ tagResults [⟨"github", [⟨10, none⟩, ⟨5, some "code"⟩]⟩]) ∧
    (analyzeDiscoveryResults [⟨"github", [⟨10, none⟩, ⟨5, some "code"⟩]⟩]).references.length =
      min 3 (tagResults [⟨"github", [⟨10, none⟩, ⟨5, some "code"⟩]⟩]).length ∧
    (analyzeDiscoveryResults [⟨"github", [⟨10, none⟩, ⟨5, some "code"⟩]⟩]).suggestedApproach =
      (if headHasImpl (analyzeDiscoveryResults [⟨"github", [⟨10, none⟩, ⟨5, some "code"⟩]⟩]).references.head?
       then "adapt-existing" else "ai-generated") ∧
    (analyzeDiscoveryResults [⟨"github", [⟨10, none⟩, ⟨5, some "code"⟩]⟩]).bestMatch =
      (analyzeDiscoveryResults [⟨"github", [⟨10, none⟩, ⟨5, some "code"⟩]⟩]).references.head?) :=
  ⟨by decide, analyzeDiscoveryResults_top3_spec _ (by decide)⟩

/-- C5: whenever the security scan on a present handler code fails, the
sandbox test short-circuits: it returns `passed = false` with the
still-empty execution-test list, no compilation result, and the
scan-failure error, for every compile oracle, execution oracle and
test-case list. -/
theorem sandbox_test_security_scan_short_circuits
    (rtest : String → String → Bool) (compileError : Option String)
    (run : TestCase → ExecOutcome) (tool : Tool) (testCases : List TestCase)
    (testId : String) (hcode : tool.handlerCode ≠ "")
    (hscan : (performSecurityScan rtest tool.handlerCode).passed = false) :
    (ToolSandbox.test rtest compileError run tool testCases testId).passed = false ∧
    (ToolSandbox.test rtest compileError run tool testCases testId).executionTests = some [] ∧
    (ToolSandbox.test rtest compileError run tool testCases testId).compilationTest = none ∧
    (ToolSandbox.test rtest compileError run tool testCases testId).error =
      some "Security scan failed" := by
  unfold ToolSandbox.test
  rw [if_neg hcode]
  simp [hscan]

/-- Witness for C5: a handler whose code trips every scan pattern is
rejected before any compilation or execution. -/
theorem sandbox_test_security_scan_short_circuits_witness :
    ((⟨"t", "require(x)", schemaD⟩ : Tool).handlerCode ≠ "" ∧
      (performSecurityScan (fun _ _ => true) (⟨"t", "require(x)", schemaD⟩ : Tool).handlerCode).passed = false) ∧
    ((ToolSandbox.test (fun _ _ => true) none (fun _ => .notFunction)
        ⟨"t", "require(x)", schemaD⟩ [] "tid-2").passed = false ∧
      (ToolSandbox.test (fun _ _ => true) none (fun _ => .notFunction)
        ⟨"t", "require(x)", schemaD⟩ [] "tid-2").executionTests = some [] ∧
      (ToolSandbox.test (fun _ _ => true) none (fun _ => .notFunction)
        ⟨"t", "require(x)", schemaD⟩ [] "tid-2").compilationTest = none ∧
      (ToolSandbox.test (fun _ _ => true) none (fun _ => .notFunction)
        ⟨"t", "require(x)", schemaD⟩ [] "tid-2").error = some "Security scan failed") :=
  ⟨⟨by decide, by decide⟩,
    sandbox_test_security_scan_short_circuits _ _ _ _ _ _ (by decide) (by decide)⟩

/-- C6: while an evolution is active for the same sanitized name, a second
`evolve` call returns immediately with `success = false` and the evolutionId
of the running evolution, leaves the active-evolutions map untouched, and
attempts no audit row, for every log store and stage oracle. -/
theorem evolve_rejects_duplicate_active_name
    (store : LogRow → Except String Unit) (active : List (String × String))
    (toolName evolutionId existingId : String) (outcome : StageOutcome)
    (hname : toolName ≠ "")
    (hget : mapGet active (sanitizeName toolName) = some existingId) :
    evolve store active toolName evolutionId outcome =
      ⟨active,
        ⟨false, some ("Evolution already in progress for " ++ sanitizeName toolName),
          existingId, none⟩,
        []⟩ := by
  have hhas : mapHas active (sanitizeName toolName) = true :=
    mapHas_of_mapGet_some hget
  unfold evolve
  rw [if_neg hname, if_pos hhas]
  rw [hget]
  rfl

/-- Witness for C6: with `mytool` active under id `e0`, a second call
returns `e0` and changes nothing. -/
theorem evolve_rejects_duplicate_active_name_witness :
    (("mytool" : String) ≠ "" ∧
      mapGet [("mytool", "e0")] (sanitizeName "mytool") = some "e0") ∧
    evolve (fun _ => .ok ()) [("mytool", "e0")] "mytool" "e1" .testFail =
      ⟨[("mytool", "e0")],
        ⟨false, some ("Evolution already in progress for " ++ sanitizeName "mytool"),
          "e0", none⟩,
        []⟩ :=
  ⟨⟨by decide, by decide⟩,
    evolve_rejects_duplicate_active_name _ _ _ _ _ _ (by decide) (by decide)⟩

/-- After any `evolve` call, the active-evolutions map is either untouched
(an early rejection) or — only below the cap — the lock-then-release shape
of the main path. -/
theorem evolve_state_characterization
    (store : LogRow → Except String Unit) (active : List (String × String))
    (toolName evolutionId : String) (outcome : StageOutcome) :
    (evolve store active toolName evolutionId outcome).state = active ∨
    (mapSize active < MAX_CONCURRENT_EVOLUTIONS ∧
      (evolve store active toolName evolutionId outcome).state =
        mapDelete (mapSet active (sanitizeName toolName) evolutionId) toolName) := by
  by_cases h0 : toolName = ""
  · exact Or.inl (by simp [evolve, h0])
  · by_cases h1 : mapHas active (sanitizeName toolName) = true
    · exact Or.inl (by simp [evolve, h0, h1])
    · by_cases h2 : MAX_CONCURRENT_EVOLUTIONS ≤ mapSize active
      · exact Or.inl (by simp [evolve, h0, h1, h2])
      · refine Or.inr ⟨Nat.lt_of_not_le h2, ?_⟩
        unfold evolve
        rw [if_neg h0, if_neg h1, if_neg h2]
        cases outcome <;> simp [List.mapM, mapM_loop_logStage]

/-- C7: the active-evolutions map never grows beyond the cap of 5 across an
`evolve` call, and a call arriving while the cap is reached (for a name not
already locked) fails immediately with the maximum-concurrent-evolutions
error, adds no entry, and attempts no audit row. -/
theorem evolve_concurrency_cap
    (store : LogRow → Except String Unit) (active : List (String × String))
    (toolName evolutionId : String) (outcome : StageOutcome) :
    (mapSize active ≤ MAX_CONCURRENT_EVOLUTIONS →
      mapSize (evolve store active toolName evolutionId outcome).state ≤
        MAX_CONCURRENT_EVOLUTIONS) ∧
    (MAX_CONCURRENT_EVOLUTIONS ≤ mapSize active →
      mapHas active (sanitizeName toolName) = false →
      toolName ≠ "" →
      evolve store active toolName evolutionId outcome =
        ⟨active,
          ⟨false, some "Maximum concurrent evolutions (5) reached", evolutionId, none⟩,
          []⟩) := by
  constructor
  · intro hsz
    rcases evolve_state_characterization store active toolName evolutionId outcome with
      h | ⟨hlt, h⟩
    · rw [h]
      exact hsz
    · rw [h]
      have hset := mapSize_mapSet_le active (sanitizeName toolName) evolutionId
      have hdel := mapSize_mapDelete_le
        (mapSet active (sanitizeName toolName) evolutionId) toolName
      omega
  · intro hcap hhas hname
    unfold evolve
    rw [if_neg hname, if_neg (by simp [hhas]), if_pos hcap]

/-- Witness for C7: with five evolutions active, a sixth for a fresh name is
rejected with the cap error and both invariants hold at that state. -/
theorem evolve_concurrency_cap_witness :
    (MAX_CONCURRENT_EVOLUTIONS ≤
        mapSize [("a", "1"), ("b", "2"), ("c", "3"), ("d", "4"), ("e", "5")] ∧
      mapHas [("a", "1"), ("b", "2"), ("c", "3"), ("d", "4"), ("e", "5")]
        (sanitizeName "newtool") = false ∧
      ("newtool" : String) ≠ "") ∧
    evolve (fun _ => .ok ()) [("a", "1"), ("b", "2"), ("c", "3"), ("d", "4"), ("e", "5")]
        "newtool" "e6" (.ok "t") =
      ⟨[("a", "1"), ("b", "2"), ("c", "3"), ("d", "4"), ("e", "5")],
        ⟨false, some "Maximum concurrent evolutions (5) reached", "e6", none⟩,
        []⟩ :=
  ⟨⟨by decide, by decide, by decide⟩,
    (evolve_concurrency_cap (fun _ => .ok ()) _ "newtool" "e6" (.ok "t")).2
      (by decide) (by decide) (by decide)⟩

/-- C8: for a name registered in neither registry, with auto-evolution
enabled, whenever the evolution fails or any exception is thrown during
evolve-and-execute (registration or the post-evolution execution), the
registry's `execute` returns (never throws) a structured response with
`isError: true`; on an orchestrator failure that response is exactly the
evolution-failed payload carrying the failure reason and stage. -/
theorem registryExecute_structured_error_on_evolution_failure
    (builtinRun dynamicRun runAfter : Except String JValue)
    (autoEvolveEnabled : Bool) (ctxAutoEvolve : Option Bool)
    (evolutionResult : EvolveResult) (register : Except String Unit)
    (name : String)
    (hevolve : ((ctxAutoEvolve != some false) && autoEvolveEnabled) = true)
    (hfail : evolutionResult.success = false ∨ (∃ e, register = .error e) ∨
      (∃ e, runAfter = .error e)) :
    ∃ resp,
      registryExecute false false builtinRun dynamicRun autoEvolveEnabled
        ctxAutoEvolve evolutionResult register runAfter name = .ok resp ∧
      getField resp "isError" = some (.bool true) ∧
      (evolutionResult.success = false →
        resp = evolutionFailedResponse name evolutionResult) := by
  refine ⟨evolveAndExecute evolutionResult register runAfter name, ?_, ?_, ?_⟩
  · simp [registryExecute, hevolve]
  · unfold evolveAndExecute
    cases hs : evolutionResult.success with
    | false => rfl
    | true =>
      simp only [hs, Bool.not_true, Bool.false_eq_true, if_false]
      cases register with
      | error e => rfl
      | ok _ =>
        cases hrun : runAfter with
        | error e => rfl
        | ok v =>
          rcases hfail with h | ⟨e, h⟩ | ⟨e, h⟩ <;> simp_all
  · intro hs
    unfold evolveAndExecute
    rw [hs]
    rfl

/-- Witness for C8 with a concrete failed evolution. -/
theorem registryExecute_structured_error_witness :
    (((some true != some false) && true) = true ∧
      (⟨false, some "Tool failed sandbox testing", "e1", some "testing"⟩ : EvolveResult).success = false) ∧
    (∃ resp,
      registryExecute false false (.ok .null) (.ok .null) true (some true)
        ⟨false, some "Tool failed sandbox testing", "e1", some "testing"⟩
        (.ok ()) (.ok .null) "newtool" = .ok resp ∧
      getField resp "isError" = some (.bool true) ∧
      ((⟨false, some "Tool failed sandbox testing", "e1", some "testing"⟩ : EvolveResult).success = false →
        resp = evolutionFailedResponse "newtool"
          ⟨false, some "Tool failed sandbox testing", "e1", some "testing"⟩)) :=
  ⟨⟨by decide, by decide⟩,
    registryExecute_structured_error_on_evolution_failure
      (.ok .null) (.ok .null) (.ok .null) true (some true)
      ⟨false, some "Tool failed sandbox testing", "e1", some "testing"⟩
      (.ok ()) "newtool" (by decide) (Or.inl (by decide))⟩

/-- The text-typed property schema of Scenario D's input schema. -/
def schemaTextProp : Schema := .mk (some "string") none none none none [] []

/-- A well-formed MCP result used to exercise the validation path. -/
def mcpOkResult : JValue :=
  .obj [("content", .arr [.obj [("type", .str "text"), ("text", .str "ok")]])]

/-- The required-only test case the sandbox synthesizes for Scenario D's
schema. -/
def minimalCaseD : TestCase :=
  { name := "minimal_required_params",
    input := .obj [("text", .str "test_value")],
    expectedOutput := .obj [("type", .str "success")] }

/-- C9: a required string property with no enum and no default always
samples to `test_value`; in particular the Scenario D schema synthesizes
the required-only input `{text: "test_value"}` (and the same value for the
all-params case); and a handler that accepts a synthesized case and
returns a well-formed MCP response passes that execution test. -/
theorem sandbox_required_only_testcase_synthesis :
    (∀ s : Schema, s.type = some "string" → s.enum = none → s.dflt = none →
      generateSampleValue (some s) = .str "test_value") ∧
    ((generateDefaultTestCases schemaD).map (fun t => t.input)) =
      [.obj [("text", .str "test_value")], .obj [("text", .str "test_value")]] ∧
    ((generateDefaultTestCases schemaD).map (fun t => t.name)) =
      ["minimal_required_params", "all_params"] ∧
    (∀ r : JValue, hasValidMcpContent r = true →
      ∀ t ∈ generateDefaultTestCases schemaD,
        (testExecution (fun _ => .value r) t).passed = true) := by
  refine ⟨?_, ?_, ?_, ?_⟩
  · rintro ⟨t, e, d, m, i, p, req⟩ ht he hd
    simp only [Schema.type] at ht
    simp only [Schema.enum] at he
    simp only [Schema.dflt] at hd
    subst ht
    subst he
    subst hd
    simp [generateSampleValue]
  · simp [generateDefaultTestCases, schemaD, lookupProp, objSet, generateSampleValue,
      Schema.properties, Schema.required]
  · simp [generateDefaultTestCases, schemaD, Schema.properties, Schema.required]
  · intro r hr t _
    have htr := jsTruthy_of_hasValidMcpContent hr
    simp [testExecution, validateResult_eq_cases, htr, hr]

/-- Witness for C9 at the Scenario D schema, a concrete valid response and
the synthesized required-only test case. -/
theorem sandbox_required_only_testcase_synthesis_witness :
    (schemaTextProp.type = some "string" ∧ schemaTextProp.enum = none ∧
      schemaTextProp.dflt = none ∧ hasValidMcpContent mcpOkResult = true) ∧
    (generateSampleValue (some schemaTextProp) = .str "test_value" ∧
      (testExecution (fun _ => .value mcpOkResult) minimalCaseD).passed = true) :=
  ⟨⟨rfl, rfl, rfl, by decide⟩,
    ⟨sandbox_required_only_testcase_synthesis.1 schemaTextProp rfl rfl rfl,
      sandbox_required_only_testcase_synthesis.2.2.2 mcpOkResult (by decide)
        minimalCaseD
        (by simp [generateDefaultTestCases, schemaD, lookupProp, objSet,
              generateSampleValue, Schema.properties, Schema.required, minimalCaseD])⟩⟩

/-- C10: `logStage` swallows every store failure (it always resolves), the
entire `evolve` call — its returned result, its final lock state and the
rows it attempts — is unchanged by swapping the durable log store for any
other, and a run whose every audit write fails still completes with
success. -/
theorem evolve_result_independent_of_log_store
    (store store2 : LogRow → Except String Unit)
    (active : List (String × String)) (toolName evolutionId : String)
    (outcome : StageOutcome) (row : LogRow) :
    logStage store row = .ok () ∧
    evolve store active toolName evolutionId outcome =
      evolve store2 active toolName evolutionId outcome ∧
    (evolve (fun _ => .error "log store down") [] "my_tool" "id-1"
      (.ok "tool-1")).result.success = true := by
  refine ⟨logStage_ok store row, ?_, by decide⟩
  by_cases h0 : toolName = ""
  · simp [evolve, h0]
  · by_cases h1 : mapHas active (sanitizeName toolName) = true
    · simp [evolve, h0, h1]
    · by_cases h2 : MAX_CONCURRENT_EVOLUTIONS ≤ mapSize active
      · simp [evolve, h0, h1, h2]
      · unfold evolve
        rw [if_neg h0, if_neg h1, if_neg h2, if_neg h0, if_neg h1, if_neg h2]
        cases outcome <;> simp [List.mapM, mapM_loop_logStage]

end UStdMCP
